import Mathlib

/-!
Verification development for the chatbot repository (a minimal RAG backend):
a shallow embedding, in Lean, of `src/main.py` (the FastAPI `/search` service
and its Hugging Face embedding call) and `src/populate_database.py` (the
ingestion pipeline), together with theorems settling the specification's
claims about them.

Python floats are modelled as exact rationals (`ℚ`); text as `List Char`
(Python `str`); machine-level concerns (actual HTTP, the numpy encoder, the
Supabase client) are modelled as oracle inputs, since the code treats them as
opaque services.
-/

namespace Chatbot

/-! ## JSON values returned by the embedding provider (`response.json()`).

`num` covers Python `int`/`float` (both satisfy `isinstance(x, (int, float))`);
`arr` covers lists; `other` covers every remaining JSON value (objects such as
the provider's error payloads, `null`, strings): on all of them
`isinstance(x, (int, float))` is false and `float(x)` raises. -/
inductive JVal where
  | num (q : ℚ)
  | arr (l : List JVal)
  | other

/-- `isinstance(x, (int, float))` on a JSON value. -/
def JVal.isNum : JVal → Bool
  | .num _ => true
  | _ => false

/-- The exceptions `generate_text_embedding` can raise (src/main.py lines
37-79), by Python exception class. -/
inductive EmbError where
  /-- `ValueError` from the missing-token check (line 38). -/
  | valueError
  /-- `requests.HTTPError` re-raised after logging (line 55); carries
  `getattr(http_err.response, "status_code", None)`. -/
  | httpError (status : Option Nat)
  /-- `requests.exceptions.JSONDecodeError` from `response.json()` on an
  undecodable body, re-raised (line 58); carries `str(exc)`. It subclasses
  `json.JSONDecodeError`, itself a subclass of `ValueError`. -/
  | jsonDecodeError (msg : String)
  /-- any other exception of the request block (connection error, timeout),
  re-raised (line 58); not a `ValueError`. -/
  | requestFailed
  /-- `RuntimeError("Unexpected embedding format ...")` (line 79). -/
  | runtimeError
  /-- `TypeError` from `float(val)` / `enumerate(vec)` on a non-numeric,
  non-list value during mean-pooling (lines 73-75). -/
  | typeError
  /-- `IndexError` from `sums[i]` when a row is longer than the first row
  (line 75). -/
  | indexError
deriving DecidableEq

/-- Which of the modelled exceptions are instances of Python `ValueError`
(the class the endpoint's `except ValueError` at src/main.py line 118
catches): the missing-token `ValueError` itself, and the JSON-decode
failure, since `requests.exceptions.JSONDecodeError` subclasses
`ValueError`. `HTTPError`, `RuntimeError`, `TypeError` and `IndexError`
are not `ValueError`s. -/
def EmbError.isValueError : EmbError → Bool
  | .valueError => true
  | .jsonDecodeError _ => true
  | _ => false

/-- `str(ve)` for the `ValueError`-class exceptions — the string the
endpoint interpolates into its 503 detail (src/main.py line 120): the
message of the `raise ValueError(...)` at line 38, or the decode error's
own message. On the non-`ValueError` constructors, which the endpoint
never interpolates, it is `""`. -/
def EmbError.valueErrorMsg : EmbError → String
  | .valueError =>
    "HF_API_TOKEN must be set to generate embeddings via Hugging Face Inference API."
  | .jsonDecodeError msg => msg
  | _ => ""

/-- The inner statement `sums[i] += float(val)` iterated over
`enumerate(vec)` (src/main.py lines 74-75): walks `sums` and the row in
parallel. When the row outruns `sums`, `sums[i]` raises `IndexError` (the
subscript is evaluated before `float(val)`, so `IndexError` wins even if the
value is also bad); a non-numeric value makes `float(val)` raise `TypeError`;
a row shorter than `sums` leaves the remaining components untouched. -/
def addRowAux : List ℚ → List JVal → Except EmbError (List ℚ)
  | sums, [] => .ok sums
  | [], _ :: _ => .error .indexError
  | s :: srest, v :: vrest =>
    match v with
    | .num q => (addRowAux srest vrest).map (fun r => (s + q) :: r)
    | _ => .error .typeError

/-- The outer loop `for vec in token_vectors` (src/main.py lines 73-75).
A row that is not a list makes `enumerate`/`float` raise `TypeError`. -/
def poolRows : List ℚ → List JVal → Except EmbError (List ℚ)
  | sums, [] => .ok sums
  | sums, row :: rest =>
    match row with
    | .arr elems =>
      match addRowAux sums elems with
      | .ok sums2 => poolRows sums2 rest
      | .error e => .error e
    | _ => .error .typeError

/-- The response-shape normalisation of `generate_text_embedding`
(src/main.py lines 63-79), applied to the decoded JSON `data`:

* not a list, an empty list, or first element not a list → `RuntimeError`;
* first element a list but containing a non-number → `RuntimeError`;
* otherwise line 67 re-checks `all(isinstance(x, (int, float)) for x in
  data)` — which can never hold here, since `data[0]` is a list — and the
  code falls through to mean-pooling: `sums` starts as `[0.0] * len(data[0])`,
  every row is accumulated by `addRowAux`, and each component is divided by
  `max(1, len(data))`. -/
def embed_normalize (data : JVal) : Except EmbError (List ℚ) :=
  match data with
  | .arr rows =>
    match rows with
    | [] => .error .runtimeError
    | first :: _ =>
      match first with
      | .arr felems =>
        if felems.all JVal.isNum then
          if rows.all JVal.isNum then
            -- dead branch: `rows` contains `first`, a list, never a number
            .ok (rows.filterMap (fun v => match v with | .num q => some q | _ => none))
          else
            match poolRows (List.replicate felems.length 0) rows with
            | .ok sums => .ok (sums.map (fun s => s / ((max 1 rows.length : ℕ) : ℚ)))
            | .error e => .error e
        else .error .runtimeError
      | _ => .error .runtimeError
  | _ => .error .runtimeError

/-! ## The remote call of `generate_text_embedding` (src/main.py lines 35-58). -/

/-- What the `requests.post` / `raise_for_status` / `response.json()` block
can do, as seen by the surrounding Python: raise `requests.HTTPError`
(with the response's status code, when present), raise
`requests.exceptions.JSONDecodeError` — a `ValueError` subclass — from
`response.json()` on an undecodable body (with its message), raise some
other, non-`ValueError` exception (connection error, timeout), or hand
back decoded JSON. -/
inductive RemoteOutcome where
  | httpError (status : Option Nat)
  | jsonDecodeError (msg : String)
  | requestFailed
  | response (data : JVal)

/-- The three log classifications of an HTTP error (src/main.py lines 49-54). -/
inductive HttpLog where
  | unauthorized
  | notFound
  | genericHttpError
deriving DecidableEq

/-- Which message the `except requests.HTTPError` handler logs
(src/main.py lines 48-54): 401 → unauthorized, 404 → model not found,
anything else → generic `logging.exception`. -/
def classify_http_error (status : Option Nat) : HttpLog :=
  if status = some 401 then .unauthorized
  else if status = some 404 then .notFound
  else .genericHttpError

/-- `if not HF_API_TOKEN` (src/main.py line 37): an unset variable
(`os.getenv` returned `None`) or an empty string is falsy. -/
def tokenMissing : Option String → Bool
  | none => true
  | some s => s == ""

/-- One run of `generate_text_embedding`: whether the remote call was
attempted, what (if anything) the HTTP-error handler logged, and the
result — a vector, or the exception that propagates to the caller. -/
structure EmbedRun where
  attempted : Bool
  log : Option HttpLog
  result : Except EmbError (List ℚ)

/-- `generate_text_embedding` (src/main.py lines 35-79), with the provider
modelled as an oracle `remote`:

* a missing/empty `HF_API_TOKEN` raises `ValueError` before any call;
* an HTTP error is logged by classification and re-raised unchanged;
* a JSON-decode failure and any other request failure are logged and
  re-raised unchanged (keeping their Python exception class);
* a decoded JSON body is normalised by `embed_normalize`. -/
def generate_text_embedding (token : Option String) (remote : RemoteOutcome) :
    EmbedRun :=
  if tokenMissing token then
    ⟨false, none, .error .valueError⟩
  else
    match remote with
    | .httpError status =>
      ⟨true, some (classify_http_error status), .error (.httpError status)⟩
    | .jsonDecodeError msg => ⟨true, none, .error (.jsonDecodeError msg)⟩
    | .requestFailed => ⟨true, none, .error .requestFailed⟩
    | .response data => ⟨true, none, embed_normalize data⟩

/-! ## The `/search` endpoint (src/main.py lines 107-149). -/

/-- One row returned by the `match_health_documents` RPC: the code reads
`item['content']` and `item['metadata']['source']`. -/
structure Row where
  content : String
  source : String
deriving DecidableEq

/-- The argument dictionary of `supabase.rpc('match_health_documents', ...)`
(src/main.py lines 127-131). -/
structure RpcCall where
  query_embedding : List ℚ
  match_threshold : ℚ
  match_count : ℕ
deriving DecidableEq

/-- What `supabase.rpc(...).execute()` can do: raise (any exception), or
return a response whose `.data` attribute is absent/`None` (`none`) or a
list of rows. -/
inductive RpcOutcome where
  | rpcError
  | rpcData (data : Option (List Row))

/-- What the endpoint hands back to FastAPI: a raised `HTTPException`
(status code and detail string) or the `{"context": ..., "sources": ...}`
dictionary. -/
inductive SearchResult where
  | httpStatus (status : Nat) (detail : String)
  | ok (context : String) (sources : List String)
deriving DecidableEq

/-- Result-processing step of the endpoint (src/main.py lines 136-149):
`if getattr(response, 'data', None):` — `None` and the empty list are
falsy — then join contents with the separator and deduplicate sources via
`list(set(...))`. A Python `set` guarantees each distinct source exactly
once but no order; the model fixes first-occurrence order
(`List.dedup`), and the claims about `sources` are stated
order-insensitively (membership and multiplicity). -/
def search_step3 : Option (List Row) → SearchResult
  | none => .ok "" []
  | some rows =>
    if rows.isEmpty then .ok "" []
    else
      .ok (String.intercalate "\n\n---\n\n" (rows.map Row.content))
        ((rows.map Row.source).dedup)

/-- The detail string of the endpoint's HTTP 503 in the missing-token
case: the f-string of src/main.py line 120 interpolating the `ValueError`
message from line 38. -/
def embedding_unavailable_detail : String :=
  "Embedding unavailable: HF_API_TOKEN must be set to generate embeddings via Hugging Face Inference API."

/-- `search_knowledge_base`, the `POST /search` handler (src/main.py lines
107-149), with the provider and the vector store as oracles:

* step 1 embeds the query; the exception handlers dispatch on the Python
  exception class: `except ValueError as ve` → HTTP 503 with detail
  `f"Embedding unavailable: {str(ve)}"` — this catches the missing-token
  `ValueError` and also the `ValueError` subclass
  `requests.exceptions.JSONDecodeError` — and `except Exception` →
  HTTP 502 for every non-`ValueError` exception;
* step 2 calls the RPC with the embedding, threshold 0.70, count 3; an
  exception → HTTP 502;
* step 3 builds the response via `search_step3`. -/
def search_knowledge_base (token : Option String) (remote : RemoteOutcome)
    (rpc : RpcCall → RpcOutcome) : SearchResult :=
  match (generate_text_embedding token remote).result with
  | .error e =>
    if e.isValueError then
      .httpStatus 503 ("Embedding unavailable: " ++ e.valueErrorMsg)
    else .httpStatus 502 "Failed to generate embedding from provider"
  | .ok query_embedding =>
    match rpc ⟨query_embedding, 7 / 10, 3⟩ with
    | .rpcError => .httpStatus 502 "Vector search failed"
    | .rpcData data => search_step3 data

/-! ## Ingestion (`src/populate_database.py`).

Text is `List Char`; a folder is a listing of `(filename, file content)`
pairs, in the (arbitrary) order `os.listdir` yields them. -/

/-- The ASCII whitespace characters matched by the regex class `\s` and by
`str.strip()` (space, tab, newline, carriage return, vertical tab, form
feed). Documents here are ASCII text; further Unicode whitespace is not
modelled. -/
def pySpace (c : Char) : Bool :=
  c = ' ' || c = '\t' || c = '\n' || c = '\r' ||
    c = Char.ofNat 11 || c = Char.ofNat 12

/-- `str.strip()`: drop leading and trailing whitespace. -/
def pyStrip (s : List Char) : List Char :=
  ((s.dropWhile pySpace).reverse.dropWhile pySpace).reverse

/-- Matching the tail `\s*\n` of the separator regex, greedily, right after
a leading `'\n'`: `\s*` first consumes the maximal whitespace run, then
backtracks until the next character is `'\n'`. The character after the
maximal run is never `'\n'` (it is non-whitespace or absent), so the match
succeeds exactly when the run contains a `'\n'`, consuming through the last
`'\n'` of the run. Returns how many characters of `rest` the match
consumes, or `none` when no match starts here. -/
def sep_extent (rest : List Char) : Option Nat :=
  let run := rest.takeWhile pySpace
  match run.reverse.findIdx? (fun c => c = '\n') with
  | none => none
  | some j => some (run.length - j)

/-- `re.split(r'\n\s*\n', s)`: scan left to right; at each `'\n'` try to
match the separator greedily (`sep_extent`); on a match, close the current
chunk and continue after the separator; otherwise keep the character.
`acc` is the current chunk, reversed. -/
def blank_split_aux : List Char → List Char → List (List Char)
  | acc, [] => [acc.reverse]
  | acc, c :: rest =>
    if c = '\n' then
      match sep_extent rest with
      | some k => acc.reverse :: blank_split_aux [] (rest.drop k)
      | none => blank_split_aux (c :: acc) rest
    else blank_split_aux (c :: acc) rest
termination_by _ s => s.length
decreasing_by
  all_goals simp [List.length_drop]
  all_goals omega

/-- `re.split(r'\n\s*\n', content)` (src/populate_database.py line 66). -/
def re_split_blank (content : List Char) : List (List Char) :=
  blank_split_aux [] content

/-- A loaded document: file content plus its metadata dictionary, which
holds only `"source": filename` (src/populate_database.py lines 50-55). -/
structure Document where
  content : List Char
  source : String
deriving DecidableEq

/-- A chunk: stripped paragraph text with the parent document's metadata
(src/populate_database.py lines 72-75). -/
structure Chunk where
  content : List Char
  source : String
deriving DecidableEq

/-- `chunk_document` (src/populate_database.py lines 60-76): split the
content on `\n\s*\n`, strip each piece, and keep the non-empty ones, in
order, each carrying the document's metadata. -/
def chunk_document (doc : Document) : List Chunk :=
  (re_split_blank doc.content).filterMap (fun chunk =>
    let stripped := pyStrip chunk
    if stripped.isEmpty then none else some ⟨stripped, doc.source⟩)

/-- `filename.endswith(".txt")` (src/populate_database.py line 45): the
filename's characters end in `.txt`. -/
def isTxtFile (filename : String) : Bool :=
  ".txt".data.isSuffixOf filename.data

/-- `load_documents_from_folder` (src/populate_database.py lines 38-58):
iterate the directory listing; for each filename ending in `".txt"` read
the file and append a document; any other filename is skipped with no
effect. -/
def load_documents_from_folder (listing : List (String × List Char)) :
    List Document :=
  listing.foldl
    (fun docs f => if isTxtFile f.1 then docs ++ [⟨f.2, f.1⟩] else docs)
    []

/-- Step 2 of `main` (src/populate_database.py lines 95-98):
`all_chunks.extend(chunk_document(doc))` over the loaded documents. -/
def main_all_chunks (docs : List Document) : List Chunk :=
  docs.foldl (fun acc doc => acc ++ chunk_document doc) []

/-- A record prepared for upload (src/populate_database.py lines 111-117):
content, metadata and embedding vector. -/
structure InsertRecord where
  content : List Char
  source : String
  embedding : List ℚ
deriving DecidableEq

/-- `batch_size = 100` (src/populate_database.py line 122). -/
def batch_size : Nat := 100

/-- Step 4 of `main` (src/populate_database.py lines 122-130):
`for i in range(0, len(data_to_insert), batch_size)` takes the slice
`data_to_insert[i:i + batch_size]` and tries to insert it; an exception is
printed and the loop continues. `insertOk b` is the oracle saying whether
the insert of the `b`-th batch succeeds; the returned list pairs each
attempted batch with its outcome, in order. -/
def upload_loop : List InsertRecord → (Nat → Bool) → Nat →
    List (List InsertRecord × Bool)
  | [], _, _ => []
  | d :: ds, insertOk, b =>
    ((d :: ds).take batch_size, insertOk b) ::
      upload_loop ((d :: ds).drop batch_size) insertOk (b + 1)
termination_by data _ _ => data.length
decreasing_by
  simp [List.length_drop, batch_size]
  omega

/-! ## Spec-side definitions and helper lemmas. -/

/-- The JSON value encoding a list of numeric token vectors
`[[...], [...], ...]`. -/
def encodeRows (rows : List (List ℚ)) : JVal :=
  .arr (rows.map (fun r => .arr (r.map JVal.num)))

/-- Mean pooling as the specification words it: component `i` of the result
is the arithmetic mean of component `i` across all token vectors. -/
def meanPool (rows : List (List ℚ)) : List ℚ :=
  (List.range rows.headI.length).map
    (fun i => (rows.map (fun r => r.getD i 0)).sum / (rows.length : ℚ))

/-- The shape test of src/main.py lines 63-65: is the decoded JSON a
non-empty list whose first element is a list of numbers? -/
def headNumericList : JVal → Bool
  | .arr (JVal.arr felems :: _) => felems.all JVal.isNum
  | _ => false

lemma addRowAux_num_eq (sums r : List ℚ) (h : r.length = sums.length) :
    addRowAux sums (r.map JVal.num) = .ok (List.zipWith (· + ·) sums r) := by
  induction sums generalizing r with
  | nil =>
    cases r with
    | nil => rfl
    | cons a t => simp at h
  | cons s st ih =>
    cases r with
    | nil => simp at h
    | cons a t =>
      simp only [List.map_cons, addRowAux, ih t (by simpa using h),
        Except.map, List.zipWith_cons_cons]

lemma poolRows_num_eq (sums : List ℚ) (rows : List (List ℚ))
    (h : ∀ r ∈ rows, r.length = sums.length) :
    poolRows sums (rows.map (fun r => JVal.arr (r.map JVal.num)))
      = .ok (rows.foldl (fun s r => List.zipWith (· + ·) s r) sums) := by
  induction rows generalizing sums with
  | nil => rfl
  | cons r rest ih =>
    have hr : r.length = sums.length := h r (by simp)
    have hlen : (List.zipWith (· + ·) sums r).length = sums.length := by
      simp [List.length_zipWith, hr]
    simp only [List.map_cons, poolRows, addRowAux_num_eq sums r hr,
      List.foldl_cons]
    exact ih _ (fun x hx => by rw [hlen]; exact h x (by simp [hx]))

lemma getD_zipWith_add (s r : List ℚ) (h : s.length = r.length) (i : ℕ) :
    (List.zipWith (· + ·) s r).getD i 0 = s.getD i 0 + r.getD i 0 := by
  induction s generalizing r i with
  | nil =>
    cases r with
    | nil => simp
    | cons b u => simp at h
  | cons a t ih =>
    cases r with
    | nil => simp at h
    | cons b u =>
      cases i with
      | zero => simp
      | succ n => simpa using ih u (by simpa using h) n

lemma foldl_zipWith_length (rows : List (List ℚ)) (init : List ℚ)
    (h : ∀ r ∈ rows, r.length = init.length) :
    (rows.foldl (fun s r => List.zipWith (· + ·) s r) init).length
      = init.length := by
  induction rows generalizing init with
  | nil => simp
  | cons r rest ih =>
    have hr : r.length = init.length := h r (by simp)
    have hlen : (List.zipWith (· + ·) init r).length = init.length := by
      simp [List.length_zipWith, hr]
    rw [List.foldl_cons, ih _ (fun x hx => by rw [hlen]; exact h x (by simp [hx])), hlen]

lemma foldl_zipWith_getD (rows : List (List ℚ)) (init : List ℚ)
    (h : ∀ r ∈ rows, r.length = init.length) (i : ℕ) :
    (rows.foldl (fun s r => List.zipWith (· + ·) s r) init).getD i 0
      = init.getD i 0 + (rows.map (fun r => r.getD i 0)).sum := by
  induction rows generalizing init with
  | nil => simp
  | cons r rest ih =>
    have hr : r.length = init.length := h r (by simp)
    have hlen : (List.zipWith (· + ·) init r).length = init.length := by
      simp [List.length_zipWith, hr]
    rw [List.foldl_cons, ih _ (fun x hx => by rw [hlen]; exact h x (by simp [hx]))]
    rw [getD_zipWith_add init r hr.symm i]
    simp only [List.map_cons, List.sum_cons]
    ring

lemma addRowAux_ne_runtimeError (sums : List ℚ) (elems : List JVal) :
    addRowAux sums elems ≠ .error .runtimeError := by
  induction sums generalizing elems with
  | nil =>
    cases elems with
    | nil => simp [addRowAux]
    | cons v vrest => simp [addRowAux]
  | cons s srest ih =>
    cases elems with
    | nil => simp [addRowAux]
    | cons v vrest =>
      cases v with
      | num q =>
        simp only [addRowAux]
        intro hcontra
        rcases hmap : addRowAux srest vrest with e | r
        · rw [hmap] at hcontra
          exact ih vrest (by rw [hmap]; simp_all [Except.map])
        · rw [hmap] at hcontra
          simp [Except.map] at hcontra
      | arr l => simp [addRowAux]
      | other => simp [addRowAux]

lemma poolRows_ne_runtimeError (sums : List ℚ) (rows : List JVal) :
    poolRows sums rows ≠ .error .runtimeError := by
  induction rows generalizing sums with
  | nil => simp [poolRows]
  | cons row rest ih =>
    cases row with
    | arr elems =>
      simp only [poolRows]
      rcases hadd : addRowAux sums elems with e | sums2
      · have hne := addRowAux_ne_runtimeError sums elems
        rw [hadd] at hne
        exact hne
      · exact ih sums2
    | num q => simp [poolRows]
    | other => simp [poolRows]

lemma embed_normalize_cons_arr (felems more : List JVal) :
    embed_normalize (.arr (.arr felems :: more)) =
      (if felems.all JVal.isNum then
        if (JVal.arr felems :: more).all JVal.isNum then
          .ok ((JVal.arr felems :: more).filterMap
            (fun v => match v with | .num q => some q | _ => none))
        else
          match poolRows (List.replicate felems.length 0)
              (JVal.arr felems :: more) with
          | .ok sums =>
            .ok (sums.map (fun s =>
              s / ((max 1 (JVal.arr felems :: more).length : ℕ) : ℚ)))
          | .error e => .error e
      else .error .runtimeError) := rfl

/-- On a well-formed token-level response (all rows numeric, all of the
first row's length), `embed_normalize` computes exactly the componentwise
arithmetic mean of the rows. -/
lemma embed_normalize_pools (rows : List (List ℚ)) (hne : rows ≠ [])
    (h : ∀ r ∈ rows, r.length = rows.headI.length) :
    embed_normalize (encodeRows rows) = .ok (meanPool rows) := by
  obtain ⟨r0, rest, rfl⟩ := List.exists_cons_of_ne_nil hne
  have hlen : ∀ r ∈ r0 :: rest,
      r.length = (List.replicate r0.length (0 : ℚ)).length := by
    intro r hr
    simpa using h r hr
  have hpool := poolRows_num_eq (List.replicate r0.length 0) (r0 :: rest) hlen
  have henc : encodeRows (r0 :: rest)
      = .arr (.arr (r0.map JVal.num) ::
          (rest.map (fun r => JVal.arr (r.map JVal.num)))) := by
    simp [encodeRows]
  rw [henc, embed_normalize_cons_arr]
  have hall1 : (r0.map JVal.num).all JVal.isNum = true := by
    simp [JVal.isNum]
  have hall2 : (JVal.arr (r0.map JVal.num) ::
      rest.map (fun r => JVal.arr (r.map JVal.num))).all JVal.isNum = false := by
    simp [JVal.isNum]
  rw [if_pos hall1, if_neg (by simp [hall2])]
  simp only [List.map_cons] at hpool
  have hmaplen : (JVal.arr (r0.map JVal.num) ::
      rest.map (fun r => JVal.arr (r.map JVal.num))).length
      = rest.length + 1 := by simp
  rw [List.length_map, hpool, hmaplen]
  have hmax : max 1 (rest.length + 1) = rest.length + 1 := by omega
  rw [hmax]
  set S := (r0 :: rest).foldl (fun s r => List.zipWith (· + ·) s r)
    (List.replicate r0.length 0) with hS
  have hSlen : S.length = r0.length := by
    rw [hS, foldl_zipWith_length _ _ hlen]
    simp
  have hMlen : (meanPool (r0 :: rest)).length = r0.length := by
    simp [meanPool]
  refine congrArg Except.ok (List.ext_getElem (by simp [hSlen, hMlen]) ?_)
  intro i h1 h2
  have hi : i < r0.length := by simpa [hSlen] using h1
  rw [List.getElem_map, ← List.getD_eq_getElem S (0 : ℚ) (by omega), hS,
    foldl_zipWith_getD _ _ hlen i]
  simp [meanPool, List.getD, hi, Nat.cast_ofNat]

lemma embed_normalize_runtimeError_of_badHead (data : JVal)
    (h : headNumericList data = false) :
    embed_normalize data = .error .runtimeError := by
  cases data with
  | num q => rfl
  | other => rfl
  | arr rows =>
    cases rows with
    | nil => rfl
    | cons first rest =>
      cases first with
      | num q => rfl
      | other => rfl
      | arr felems =>
        have hall : felems.all JVal.isNum = false := by
          simpa [headNumericList] using h
        rw [embed_normalize_cons_arr, if_neg (by simp [hall])]

lemma embed_normalize_ne_runtimeError_of_goodHead (data : JVal)
    (h : headNumericList data = true) :
    embed_normalize data ≠ .error .runtimeError := by
  cases data with
  | num q => simp [headNumericList] at h
  | other => simp [headNumericList] at h
  | arr rows =>
    cases rows with
    | nil => simp [headNumericList] at h
    | cons first rest =>
      cases first with
      | num q => simp [headNumericList] at h
      | other => simp [headNumericList] at h
      | arr felems =>
        have hall : felems.all JVal.isNum = true := by
          simpa [headNumericList] using h
        rw [embed_normalize_cons_arr, if_pos hall,
          if_neg (by simp [JVal.isNum])]
        rcases hp : poolRows (List.replicate felems.length 0)
            (JVal.arr felems :: rest) with e | sums
        · have hne := poolRows_ne_runtimeError
            (List.replicate felems.length 0) (JVal.arr felems :: rest)
          rw [hp] at hne
          exact hne
        · simp

/-! ## Claim C1. -/

/-- **C1** (counterexample). The response `[1, 2]` — a single flat sentence
vector — makes `generate_text_embedding` raise the RuntimeError format
error instead of returning the vector; and the mismatched response
`[[1, 2], [3]]`, which is neither a single vector nor equal-length
token-level vectors, is not rejected with a RuntimeError: the function
returns the zero-padded vector `[2, 1]`. -/
theorem C1_counterexample :
    embed_normalize (JVal.arr [JVal.num 1, JVal.num 2])
      = .error .runtimeError
  ∧ embed_normalize
      (JVal.arr [JVal.arr [JVal.num 1, JVal.num 2], JVal.arr [JVal.num 3]])
      = .ok [2, 1] := by
  refine ⟨rfl, ?_⟩
  rw [embed_normalize_cons_arr, if_pos (by simp [JVal.isNum]),
    if_neg (by simp [JVal.isNum])]
  have : poolRows (List.replicate ([JVal.num 1, JVal.num 2]).length 0)
      [JVal.arr [JVal.num 1, JVal.num 2], JVal.arr [JVal.num 3]]
      = .ok [(0 : ℚ) + 1 + 3, (0 : ℚ) + 2] := by
    simp [poolRows, addRowAux, Except.map]
  rw [this]
  norm_num

/-- **C1** (amended). `generate_text_embedding` mean-pools every response
that is a non-empty list of numeric vectors each of the first vector's
length — each component of the result is the arithmetic mean of that
component across the vectors, so a singleton-wrapped sentence vector comes
back unchanged — and raises the RuntimeError format error exactly when the
response fails the shape test "non-empty list whose first element is a list
of numbers". In particular a response that is a single flat sentence vector
raises RuntimeError rather than being returned, and a mismatched response
passing the shape test is not detected by the format check: a row longer
than the first raises IndexError, a non-numeric row raises TypeError, and
a row shorter than the first is zero-padded into a corrupted mean. -/
theorem C1_embedding_normalization :
    (∀ rows : List (List ℚ), rows ≠ [] →
        (∀ r ∈ rows, r.length = rows.headI.length) →
        embed_normalize (encodeRows rows) = .ok (meanPool rows))
  ∧ (∀ v : List ℚ,
      embed_normalize (JVal.arr (v.map JVal.num)) = .error .runtimeError)
  ∧ (∀ data : JVal,
      embed_normalize data = .error .runtimeError
        ↔ headNumericList data = false)
  ∧ embed_normalize
      (JVal.arr [JVal.arr [JVal.num 1], JVal.arr [JVal.num 2, JVal.num 3]])
      = .error .indexError
  ∧ embed_normalize (JVal.arr [JVal.arr [JVal.num 1], JVal.other])
      = .error .typeError
  ∧ embed_normalize
      (JVal.arr [JVal.arr [JVal.num 1, JVal.num 2], JVal.arr [JVal.num 3]])
      = .ok [2, 1] := by
  refine ⟨embed_normalize_pools, ?_, ?_, rfl, rfl, ?_⟩
  · intro v
    apply embed_normalize_runtimeError_of_badHead
    cases v <;> simp [headNumericList]
  · intro data
    constructor
    · intro hrt
      by_contra hgood
      exact embed_normalize_ne_runtimeError_of_goodHead data
        (by simpa using hgood) hrt
    · exact embed_normalize_runtimeError_of_badHead data
  · rw [embed_normalize_cons_arr, if_pos (by simp [JVal.isNum]),
      if_neg (by simp [JVal.isNum])]
    have : poolRows (List.replicate ([JVal.num 1, JVal.num 2]).length 0)
        [JVal.arr [JVal.num 1, JVal.num 2], JVal.arr [JVal.num 3]]
        = .ok [(0 : ℚ) + 1 + 3, (0 : ℚ) + 2] := by
      simp [poolRows, addRowAux, Except.map]
    rw [this]
    norm_num

/-- **C1** (witness): the amended mean-pooling statement applied to the
concrete token-level response `[[1, 2], [3, 4]]`. -/
theorem C1_embedding_normalization_witness :
    embed_normalize (encodeRows [[1, 2], [3, 4]])
      = .ok (meanPool [[1, 2], [3, 4]]) := by
  refine C1_embedding_normalization.1 [[1, 2], [3, 4]] (by simp) ?_
  intro r hr
  simp only [List.mem_cons, List.mem_singleton] at hr
  rcases hr with rfl | hr
  · simp
  rcases hr with rfl | hr
  · simp
  simp at hr

/-! ## Claims C2, C3, C4, C5, C7, C8 — the `/search` endpoint. -/

/-- An embedding-step failure short-circuits the endpoint: the response is
503 (with the exception's interpolated message) exactly when the raised
exception is of class `ValueError`, 502 for every other exception, and the
vector store is never consulted. -/
lemma search_of_embed_error (t : Option String) (rem : RemoteOutcome)
    (rpc : RpcCall → RpcOutcome) (e : EmbError)
    (he : (generate_text_embedding t rem).result = .error e) :
    search_knowledge_base t rem rpc =
      (if e.isValueError then
        .httpStatus 503 ("Embedding unavailable: " ++ e.valueErrorMsg)
       else .httpStatus 502 "Failed to generate embedding from provider") := by
  unfold search_knowledge_base
  rw [he]

lemma search_of_embed_ok (t : Option String) (rem : RemoteOutcome)
    (rpc : RpcCall → RpcOutcome) (v : List ℚ)
    (hv : (generate_text_embedding t rem).result = .ok v) :
    search_knowledge_base t rem rpc =
      (match rpc ⟨v, 7 / 10, 3⟩ with
       | .rpcError => .httpStatus 502 "Vector search failed"
       | .rpcData data => search_step3 data) := by
  unfold search_knowledge_base
  rw [hv]

/-- Evaluation helper: with the token set and the provider answering the
wrapped single vector `[[1]]`, the embedding step succeeds with `[1]`. -/
lemma embed_ok_one :
    (generate_text_embedding (some "hf_token")
      (.response (JVal.arr [JVal.arr [JVal.num 1]]))).result = .ok [1] := by
  have ht : tokenMissing (some "hf_token") = false := by decide
  simp only [generate_text_embedding, ht, Bool.false_eq_true, if_false]
  rw [embed_normalize_cons_arr]
  norm_num [JVal.isNum, poolRows, addRowAux, Except.map]

/-- **C2** (counterexample). With the token set, a provider HTTP error
(status 500) is an embedding-step failure, yet the endpoint answers 502
(bad gateway), not the service-unavailable 503 the claim requires for
every embedding failure. -/
theorem C2_counterexample :
    search_knowledge_base (some "hf_token") (.httpError (some 500))
        (fun _ => .rpcData (some []))
      = .httpStatus 502 "Failed to generate embedding from provider"
  ∧ ∀ d, search_knowledge_base (some "hf_token") (.httpError (some 500))
        (fun _ => .rpcData (some [])) ≠ .httpStatus 503 d := by
  refine ⟨rfl, fun d h => ?_⟩
  rw [show search_knowledge_base (some "hf_token") (.httpError (some 500))
      (fun _ => .rpcData (some []))
      = .httpStatus 502 "Failed to generate embedding from provider" from rfl] at h
  injection h with h1 h2
  exact absurd h1 (by norm_num)

/-- **C2** (amended). For every `POST /search` request the handlers
dispatch on the Python exception class, not on the failing step: an
embedding-step failure raising a `ValueError`-class exception yields HTTP
503 with detail `"Embedding unavailable: "` plus the exception's message —
this covers the missing-credential check and equally a provider body that
fails JSON decoding, since `requests.exceptions.JSONDecodeError`
subclasses `ValueError`; an embedding-step failure raising a
non-`ValueError` exception (provider HTTP error, connection/timeout
failure, the RuntimeError shape rejection, TypeError/IndexError from
mismatched pooling) yields HTTP 502; any vector-store RPC failure yields
HTTP 502; no other status codes are produced for these failure kinds, and
neither step is retried — an embedding failure short-circuits the request
without ever consulting the store. -/
theorem C2_failure_status_codes :
    (∀ (t : Option String) (rem : RemoteOutcome) (rpc : RpcCall → RpcOutcome)
        (e : EmbError), (generate_text_embedding t rem).result = .error e →
      search_knowledge_base t rem rpc =
        (if e.isValueError then
          .httpStatus 503 ("Embedding unavailable: " ++ e.valueErrorMsg)
         else .httpStatus 502 "Failed to generate embedding from provider"))
  ∧ (EmbError.valueError.isValueError = true
     ∧ (∀ msg, (EmbError.jsonDecodeError msg).isValueError = true)
     ∧ (∀ s, (EmbError.httpError s).isValueError = false)
     ∧ EmbError.requestFailed.isValueError = false
     ∧ EmbError.runtimeError.isValueError = false
     ∧ EmbError.typeError.isValueError = false
     ∧ EmbError.indexError.isValueError = false
     ∧ "Embedding unavailable: " ++ EmbError.valueError.valueErrorMsg
         = embedding_unavailable_detail)
  ∧ (∀ (t : Option String) (rem : RemoteOutcome) (rpc : RpcCall → RpcOutcome)
        (e : EmbError) (rpc' : RpcCall → RpcOutcome),
        (generate_text_embedding t rem).result = .error e →
      search_knowledge_base t rem rpc = search_knowledge_base t rem rpc')
  ∧ (∀ (t : Option String) (rem : RemoteOutcome) (rpc : RpcCall → RpcOutcome)
        (v : List ℚ), (generate_text_embedding t rem).result = .ok v →
        rpc ⟨v, 7 / 10, 3⟩ = .rpcError →
      search_knowledge_base t rem rpc = .httpStatus 502 "Vector search failed") := by
  refine ⟨search_of_embed_error,
    ⟨rfl, fun msg => rfl, fun s => rfl, rfl, rfl, rfl, rfl, rfl⟩, ?_, ?_⟩
  · intro t rem rpc e rpc' he
    rw [search_of_embed_error t rem rpc e he, search_of_embed_error t rem rpc' e he]
  · intro t rem rpc v hv hrpc
    rw [search_of_embed_ok t rem rpc v hv, hrpc]

/-- **C2** (witness): the amended statement at concrete inputs — a missing
token yields 503 with the token message, an undecodable provider body
(`JSONDecodeError`, a `ValueError` subclass) also yields 503 with the
decode message, a non-`ValueError` request failure yields 502, a store
failure yields 502. -/
theorem C2_failure_status_codes_witness :
    search_knowledge_base none .requestFailed (fun _ => .rpcError)
      = .httpStatus 503 embedding_unavailable_detail
  ∧ search_knowledge_base (some "hf_token")
      (.jsonDecodeError "Expecting value: line 1 column 1 (char 0)")
      (fun _ => .rpcError)
      = .httpStatus 503
          "Embedding unavailable: Expecting value: line 1 column 1 (char 0)"
  ∧ search_knowledge_base (some "hf_token") .requestFailed
      (fun _ => .rpcError) = .httpStatus 502 "Failed to generate embedding from provider"
  ∧ search_knowledge_base (some "hf_token")
      (.response (JVal.arr [JVal.arr [JVal.num 1]])) (fun _ => .rpcError)
      = .httpStatus 502 "Vector search failed" := by
  refine ⟨?_, ?_, ?_, ?_⟩
  · rw [C2_failure_status_codes.1 none .requestFailed
      (fun _ => .rpcError) .valueError rfl]
    rfl
  · rw [C2_failure_status_codes.1 (some "hf_token")
      (.jsonDecodeError "Expecting value: line 1 column 1 (char 0)")
      (fun _ => .rpcError)
      (.jsonDecodeError "Expecting value: line 1 column 1 (char 0)") rfl]
    rfl
  · rw [C2_failure_status_codes.1 (some "hf_token") .requestFailed
      (fun _ => .rpcError) .requestFailed rfl]
    rfl
  · exact C2_failure_status_codes.2.2.2 (some "hf_token")
      (.response (JVal.arr [JVal.arr [JVal.num 1]])) (fun _ => .rpcError)
      [(1 : ℚ)] embed_ok_one rfl

/-- **C3** (counterexample). An unauthorized provider error (401) and a
model-not-found error (404) are classified differently in the server log,
but the `/search` caller receives the identical 502 response for both, so
it cannot tell which of the three kinds occurred. -/
theorem C3_counterexample :
    classify_http_error (some 401) ≠ classify_http_error (some 404)
  ∧ search_knowledge_base (some "hf_token") (.httpError (some 401))
        (fun _ => .rpcData (some []))
      = search_knowledge_base (some "hf_token") (.httpError (some 404))
        (fun _ => .rpcData (some [])) := by
  exact ⟨by decide, rfl⟩

/-- **C3** (amended). On a provider HTTP error `generate_text_embedding`
classifies it into one of three kinds — unauthorized (401), not-found
(404), generic failure — but only in its server-side log; it re-raises the
error unchanged, and the `/search` endpoint maps every such error to the
identical 502 response, so the HTTP caller of `/search` cannot distinguish
the three kinds from the error it receives. -/
theorem C3_http_error_classification :
    classify_http_error (some 401) = .unauthorized
  ∧ classify_http_error (some 404) = .notFound
  ∧ (∀ s : Option Nat, s ≠ some 401 → s ≠ some 404 →
      classify_http_error s = .genericHttpError)
  ∧ (∀ (t : Option String) (s : Option Nat), tokenMissing t = false →
      (generate_text_embedding t (.httpError s)).log
          = some (classify_http_error s)
        ∧ (generate_text_embedding t (.httpError s)).result
          = .error (.httpError s))
  ∧ (∀ (t : Option String) (s : Option Nat) (rpc : RpcCall → RpcOutcome),
      tokenMissing t = false →
      search_knowledge_base t (.httpError s) rpc
        = .httpStatus 502 "Failed to generate embedding from provider") := by
  refine ⟨rfl, rfl, ?_, ?_, ?_⟩
  · intro s h1 h2
    simp [classify_http_error, h1, h2]
  · intro t s ht
    simp [generate_text_embedding, ht]
  · intro t s rpc ht
    have h := search_of_embed_error t (.httpError s) rpc (.httpError s)
      (by simp [generate_text_embedding, ht])
    simpa [EmbError.isValueError] using h

/-- **C3** (witness): the amended statement at concrete inputs. -/
theorem C3_http_error_classification_witness :
    classify_http_error (some 500) = .genericHttpError
  ∧ (generate_text_embedding (some "hf_token") (.httpError (some 401))).log
      = some HttpLog.unauthorized
  ∧ search_knowledge_base (some "hf_token") (.httpError (some 404))
      (fun _ => .rpcData (some []))
      = .httpStatus 502 "Failed to generate embedding from provider" := by
  refine ⟨C3_http_error_classification.2.2.1 (some 500) (by decide) (by decide),
    ?_, C3_http_error_classification.2.2.2.2 (some "hf_token") (some 404)
      (fun _ => .rpcData (some [])) rfl⟩
  have h := (C3_http_error_classification.2.2.2.1 (some "hf_token")
    (some 401) rfl).1
  simpa using h

/-- **C4**. When the embedding succeeds and the store call returns an
absent (`None`) or empty result set, the endpoint answers success with
exactly empty context and an empty sources list. -/
theorem C4_empty_results (t : Option String) (rem : RemoteOutcome)
    (rpc : RpcCall → RpcOutcome) (v : List ℚ)
    (hv : (generate_text_embedding t rem).result = .ok v)
    (hrpc : rpc ⟨v, 7 / 10, 3⟩ = .rpcData none
      ∨ rpc ⟨v, 7 / 10, 3⟩ = .rpcData (some [])) :
    search_knowledge_base t rem rpc = .ok "" [] := by
  rw [search_of_embed_ok t rem rpc v hv]
  rcases hrpc with h | h <;> rw [h] <;> rfl

/-- **C4** (witness): concrete request with a set token, a well-formed
provider response and an empty store result. -/
theorem C4_empty_results_witness :
    search_knowledge_base (some "hf_token")
      (.response (JVal.arr [JVal.arr [JVal.num 1]]))
      (fun _ => .rpcData (some [])) = .ok "" [] := by
  refine C4_empty_results (some "hf_token")
    (.response (JVal.arr [JVal.arr [JVal.num 1]]))
    (fun _ => .rpcData (some [])) [(1 : ℚ)] embed_ok_one (Or.inr rfl)

/-- **C5**. On a non-empty store result the endpoint's `sources` list
contains each distinct `metadata.source` of the matched rows exactly once:
its multiplicity is 1 for every source occurring among the rows and 0
otherwise — in particular there are no duplicates. -/
theorem C5_source_dedup (t : Option String) (rem : RemoteOutcome)
    (rpc : RpcCall → RpcOutcome) (v : List ℚ) (rows : List Row)
    (hv : (generate_text_embedding t rem).result = .ok v)
    (hrpc : rpc ⟨v, 7 / 10, 3⟩ = .rpcData (some rows)) (hne : rows ≠ []) :
    search_knowledge_base t rem rpc
      = .ok (String.intercalate "\n\n---\n\n" (rows.map Row.content))
          ((rows.map Row.source).dedup)
    ∧ ∀ s : String, ((rows.map Row.source).dedup).count s
        = if s ∈ rows.map Row.source then 1 else 0 := by
  constructor
  · rw [search_of_embed_ok t rem rpc v hv, hrpc]
    simp [search_step3, hne]
  · intro s
    by_cases hmem : s ∈ rows.map Row.source
    · simp only [hmem, if_true]
      exact List.count_eq_one_of_mem (List.nodup_dedup _)
        (List.mem_dedup.mpr hmem)
    · simp only [hmem, if_false]
      exact List.count_eq_zero.mpr (fun hc => hmem (List.mem_dedup.mp hc))

/-- **C5** (witness): two matched rows sharing the source `"a.txt"` yield a
sources list in which `"a.txt"` appears exactly once. -/
theorem C5_source_dedup_witness :
    search_knowledge_base (some "hf_token")
      (.response (JVal.arr [JVal.arr [JVal.num 1]]))
      (fun _ => .rpcData (some [⟨"c1", "a.txt"⟩, ⟨"c2", "a.txt"⟩]))
      = .ok "c1\n\n---\n\nc2" ["a.txt"]
  ∧ (([⟨"c1", "a.txt"⟩, ⟨"c2", "a.txt"⟩] : List Row).map Row.source).dedup.count "a.txt" = 1 := by
  have h := C5_source_dedup (some "hf_token")
    (.response (JVal.arr [JVal.arr [JVal.num 1]]))
    (fun _ => .rpcData (some [⟨"c1", "a.txt"⟩, ⟨"c2", "a.txt"⟩]))
    [(1 : ℚ)] [⟨"c1", "a.txt"⟩, ⟨"c2", "a.txt"⟩]
    embed_ok_one
    rfl (by simp)
  refine ⟨?_, ?_⟩
  · rw [h.1]
    rfl
  · rw [h.2 "a.txt"]
    simp

/-- **C7**. With the provider credential missing (unset or empty
`HF_API_TOKEN`), `generate_text_embedding` raises `ValueError` without
attempting the remote call — its outcome is the same whatever the remote
would have answered — and the `/search` endpoint turns this into the HTTP
503 service-unavailable response. -/
theorem C7_missing_token (t : Option String) (rem rem' : RemoteOutcome)
    (rpc : RpcCall → RpcOutcome) (ht : tokenMissing t = true) :
    (generate_text_embedding t rem).attempted = false
  ∧ (generate_text_embedding t rem).result = .error .valueError
  ∧ generate_text_embedding t rem = generate_text_embedding t rem'
  ∧ search_knowledge_base t rem rpc
      = .httpStatus 503 embedding_unavailable_detail := by
  refine ⟨by simp [generate_text_embedding, ht], by simp [generate_text_embedding, ht],
    by simp [generate_text_embedding, ht], ?_⟩
  rw [search_of_embed_error t rem rpc .valueError
    (by simp [generate_text_embedding, ht])]
  rfl

/-- **C7** (witness): unset token, at a concrete request. -/
theorem C7_missing_token_witness :
    (generate_text_embedding none (.response (JVal.arr [JVal.arr [JVal.num 1]]))).attempted = false
  ∧ search_knowledge_base none (.response (JVal.arr [JVal.arr [JVal.num 1]]))
      (fun _ => .rpcData (some [])) = .httpStatus 503 embedding_unavailable_detail := by
  have h := C7_missing_token none (.response (JVal.arr [JVal.arr [JVal.num 1]]))
    .requestFailed (fun _ => .rpcData (some [])) rfl
  exact ⟨h.1, h.2.2.2⟩

/-- **C8**. Whenever the query embedding succeeds with vector `v`, the
endpoint consults the store exactly through the single RPC call
`match_health_documents(query_embedding = v, match_threshold = 0.70,
match_count = 3)`: its response is a function of that call's outcome
alone, and two stores agreeing on that one call give identical
responses. -/
theorem C8_rpc_arguments (t : Option String) (rem : RemoteOutcome)
    (rpc rpc' : RpcCall → RpcOutcome) (v : List ℚ)
    (hv : (generate_text_embedding t rem).result = .ok v) :
    search_knowledge_base t rem rpc =
      (match rpc ⟨v, 7 / 10, 3⟩ with
       | .rpcError => .httpStatus 502 "Vector search failed"
       | .rpcData data => search_step3 data)
  ∧ (rpc ⟨v, 7 / 10, 3⟩ = rpc' ⟨v, 7 / 10, 3⟩ →
      search_knowledge_base t rem rpc = search_knowledge_base t rem rpc') := by
  refine ⟨search_of_embed_ok t rem rpc v hv, fun hagree => ?_⟩
  rw [search_of_embed_ok t rem rpc v hv, search_of_embed_ok t rem rpc' v hv,
    hagree]

/-- **C8** (witness): a concrete request in which the store only answers
the call with threshold 0.70 and count 3; the endpoint's answer is that
call's rows. -/
theorem C8_rpc_arguments_witness :
    search_knowledge_base (some "hf_token")
      (.response (JVal.arr [JVal.arr [JVal.num 1]]))
      (fun c => if c.match_threshold = 7 / 10 ∧ c.match_count = 3
        then .rpcData (some [⟨"hit", "a.txt"⟩]) else .rpcError)
      = .ok "hit" ["a.txt"] := by
  have h := (C8_rpc_arguments (some "hf_token")
    (.response (JVal.arr [JVal.arr [JVal.num 1]]))
    (fun c => if c.match_threshold = 7 / 10 ∧ c.match_count = 3
      then .rpcData (some [⟨"hit", "a.txt"⟩]) else .rpcError)
    (fun c => if c.match_threshold = 7 / 10 ∧ c.match_count = 3
      then .rpcData (some [⟨"hit", "a.txt"⟩]) else .rpcError)
    [(1 : ℚ)]
    embed_ok_one).1
  rw [h, if_pos (show (7 : ℚ) / 10 = 7 / 10 ∧ (3 : ℕ) = 3 from ⟨rfl, rfl⟩)]
  rfl

/-! ## Claims C6, C9, C10 — the ingestion pipeline. -/

/-- The number of a document content's paragraph splits that are non-empty
after stripping whitespace (the count the specification names). -/
def nonempty_paragraph_splits (content : List Char) : ℕ :=
  ((re_split_blank content).filter (fun c => !(pyStrip c).isEmpty)).length

lemma chunk_pieces_length (src : String) (l : List (List Char)) :
    (l.filterMap (fun chunk =>
        let stripped := pyStrip chunk
        if stripped.isEmpty then none else some (Chunk.mk stripped src))).length
      = (l.filter (fun c => !(pyStrip c).isEmpty)).length := by
  induction l with
  | nil => rfl
  | cons c rest ih =>
    simp only [List.filterMap_cons, List.filter_cons, List.isEmpty_iff] at ih ⊢
    by_cases h : pyStrip c = [] <;> simp [h, ih]

lemma chunk_document_length (doc : Document) :
    (chunk_document doc).length = nonempty_paragraph_splits doc.content := by
  unfold chunk_document nonempty_paragraph_splits
  exact chunk_pieces_length doc.source (re_split_blank doc.content)

lemma main_all_chunks_eq (docs : List Document) :
    main_all_chunks docs = (docs.map chunk_document).flatten := by
  unfold main_all_chunks
  suffices h : ∀ init : List Chunk,
      docs.foldl (fun acc doc => acc ++ chunk_document doc) init
        = init ++ (docs.map chunk_document).flatten by
    simpa using h []
  induction docs with
  | nil => simp
  | cons d rest ih =>
    intro init
    simp [List.foldl_cons, ih, List.append_assoc]

/-- **C6**. `chunk_document` yields one chunk per paragraph split of the
document that is non-empty after stripping, and the ingestion pipeline's
`all_chunks` accumulation makes the total chunk count the sum, over all
loaded documents, of those per-document counts. -/
theorem C6_chunk_count (docs : List Document) :
    (∀ doc ∈ docs,
      (chunk_document doc).length = nonempty_paragraph_splits doc.content)
  ∧ (main_all_chunks docs).length
      = (docs.map (fun d => nonempty_paragraph_splits d.content)).sum := by
  refine ⟨fun doc _ => chunk_document_length doc, ?_⟩
  rw [main_all_chunks_eq]
  induction docs with
  | nil => rfl
  | cons d rest ih =>
    simp [List.flatten_cons, chunk_document_length, ih]

/-- **C6** (witness): a two-document folder — one document with two
paragraphs separated by a blank line plus a whitespace-only trailing
split, one document with a single paragraph — produces 2 + 1 chunks. -/
theorem C6_chunk_count_witness :
    (main_all_chunks
        [⟨"p1\n\np2\n\n \n".toList, "a.txt"⟩, ⟨"q".toList, "b.txt"⟩]).length
      = ([⟨"p1\n\np2\n\n \n".toList, "a.txt"⟩,
          (⟨"q".toList, "b.txt"⟩ : Document)].map
            (fun d => nonempty_paragraph_splits d.content)).sum :=
  (C6_chunk_count
    [⟨"p1\n\np2\n\n \n".toList, "a.txt"⟩, ⟨"q".toList, "b.txt"⟩]).2

lemma upload_loop_flatten (data : List InsertRecord) (ok : ℕ → Bool)
    (b : ℕ) :
    ((upload_loop data ok b).map Prod.fst).flatten = data := by
  induction data, ok, b using upload_loop.induct with
  | case1 ok b => simp [upload_loop]
  | case2 d ds ok b ih =>
    rw [upload_loop]
    simp [List.map_cons, List.flatten_cons, ih]

lemma upload_loop_batch_sizes (data : List InsertRecord) (ok : ℕ → Bool)
    (b : ℕ) :
    ∀ batch ∈ (upload_loop data ok b).map Prod.fst,
      batch.length ≤ batch_size ∧ batch ≠ [] := by
  induction data, ok, b using upload_loop.induct with
  | case1 ok b => simp [upload_loop]
  | case2 d ds ok b ih =>
    rw [upload_loop]
    simp only [List.map_cons, List.mem_cons]
    rintro batch (rfl | hmem)
    · constructor
      · simp
      · apply List.ne_nil_of_length_pos
        simp [batch_size]
    · exact ih batch hmem

lemma upload_loop_indep (data : List InsertRecord) (ok ok' : ℕ → Bool)
    (b : ℕ) :
    (upload_loop data ok b).map Prod.fst
      = (upload_loop data ok' b).map Prod.fst := by
  induction data, ok, b using upload_loop.induct with
  | case1 ok b => rw [upload_loop, upload_loop]
  | case2 d ds ok b ih =>
    rw [upload_loop, upload_loop]
    simp only [List.map_cons, List.cons.injEq]
    simp [ih]

lemma upload_loop_count (data : List InsertRecord) (ok : ℕ → Bool) (b : ℕ) :
    (upload_loop data ok b).length
      = (data.length + batch_size - 1) / batch_size := by
  induction data, ok, b using upload_loop.induct with
  | case1 ok b => rw [upload_loop]; simp [batch_size]
  | case2 d ds ok b ih =>
    rw [upload_loop]
    simp only [batch_size, List.length_drop, List.length_cons] at ih ⊢
    rw [ih]
    omega

/-- **C9**. The upload step partitions the prepared records into
consecutive batches: concatenating the attempted batches, in order,
returns exactly the record list; every batch holds at most 100 records and
none is empty; which batches are attempted does not depend on which
inserts fail (a failed batch is skipped, the loop continues — no retry, no
rollback, no abort); and the number of insert attempts is
`⌈records / 100⌉` whatever the failures. -/
theorem C9_upload_batching (data : List InsertRecord)
    (insertOk insertOk' : ℕ → Bool) :
    ((upload_loop data insertOk 0).map Prod.fst).flatten = data
  ∧ (∀ batch ∈ (upload_loop data insertOk 0).map Prod.fst,
      batch.length ≤ batch_size ∧ batch ≠ [])
  ∧ (upload_loop data insertOk 0).map Prod.fst
      = (upload_loop data insertOk' 0).map Prod.fst
  ∧ (upload_loop data insertOk 0).length
      = (data.length + batch_size - 1) / batch_size :=
  ⟨upload_loop_flatten data insertOk 0,
   upload_loop_batch_sizes data insertOk 0,
   upload_loop_indep data insertOk insertOk' 0,
   upload_loop_count data insertOk 0⟩

/-- **C9** (witness): 150 records under an oracle failing every insert are
still attempted as 2 batches whose concatenation is the full list, the
same batches as under an all-success oracle. -/
theorem C9_upload_batching_witness :
    ((upload_loop (List.replicate 150 (InsertRecord.mk [] "s" []))
        (fun _ => false) 0).map Prod.fst).flatten
      = List.replicate 150 (InsertRecord.mk [] "s" [])
  ∧ (upload_loop (List.replicate 150 (InsertRecord.mk [] "s" []))
        (fun _ => false) 0).map Prod.fst
      = (upload_loop (List.replicate 150 (InsertRecord.mk [] "s" []))
        (fun _ => true) 0).map Prod.fst
  ∧ (upload_loop (List.replicate 150 (InsertRecord.mk [] "s" []))
        (fun _ => false) 0).length = 2 := by
  have h := C9_upload_batching (List.replicate 150 (InsertRecord.mk [] "s" []))
    (fun _ => false) (fun _ => true)
  refine ⟨h.1, h.2.2.1, ?_⟩
  rw [h.2.2.2]
  simp [batch_size]

lemma load_documents_foldl (init : List Document)
    (listing : List (String × List Char)) :
    listing.foldl
        (fun docs f => if isTxtFile f.1 then docs ++ [⟨f.2, f.1⟩] else docs)
        init
      = init ++ (listing.filter (fun f => isTxtFile f.1)).map
          (fun f => Document.mk f.2 f.1) := by
  induction listing generalizing init with
  | nil => simp
  | cons f rest ih =>
    by_cases h : isTxtFile f.1 <;>
      simp [List.foldl_cons, List.filter_cons, h, ih, List.append_assoc]

/-- **C10**. `load_documents_from_folder` loads exactly the files whose
names end in `".txt"`: the loaded list is, in listing order, one Document
per `.txt` file carrying the file's full content and its filename as
`metadata.source`; every `.txt` file contributes its Document; every loaded
Document comes from a listed `.txt` file; and files without the suffix are
silently ignored — the count of Documents equals the count of `.txt`
files. -/
theorem C10_load_documents (listing : List (String × List Char)) :
    load_documents_from_folder listing
      = (listing.filter (fun f => isTxtFile f.1)).map
          (fun f => Document.mk f.2 f.1)
  ∧ (∀ f ∈ listing, isTxtFile f.1 = true →
      Document.mk f.2 f.1 ∈ load_documents_from_folder listing)
  ∧ (∀ d ∈ load_documents_from_folder listing,
      (d.source, d.content) ∈ listing ∧ isTxtFile d.source = true)
  ∧ (load_documents_from_folder listing).length
      = (listing.filter (fun f => isTxtFile f.1)).length := by
  have heq : load_documents_from_folder listing
      = (listing.filter (fun f => isTxtFile f.1)).map
          (fun f => Document.mk f.2 f.1) := by
    unfold load_documents_from_folder
    simpa using load_documents_foldl [] listing
  refine ⟨heq, ?_, ?_, ?_⟩
  · intro f hf htxt
    rw [heq]
    exact List.mem_map_of_mem _ (List.mem_filter.mpr ⟨hf, htxt⟩)
  · intro d hd
    rw [heq] at hd
    obtain ⟨f, hf, rfl⟩ := List.mem_map.mp hd
    obtain ⟨hfl, htxt⟩ := List.mem_filter.mp hf
    exact ⟨hfl, htxt⟩
  · rw [heq]
    simp

/-- **C10** (witness): a listing with one `.txt` file and one `.md` file
loads exactly the `.txt` file's Document. -/
theorem C10_load_documents_witness :
    load_documents_from_folder [("a.txt", "hi".toList), ("b.md", "no".toList)]
      = [Document.mk "hi".toList "a.txt"] := by
  rw [(C10_load_documents [("a.txt", "hi".toList), ("b.md", "no".toList)]).1]
  rfl

end Chatbot
